import Mathlib

/-!
Verification of the rate-limiting core (RateGate) of the dex-note-taking-app
repository: the Express middleware `rateLimiter` (backend/src/middleware/rateLimiter.js),
the Upstash limiter configuration `ratelimit` (backend/src/config/upstash.js),
and the sliding-window admission algorithm the spec describes for the backing
`@upstash/ratelimit` library.

Machine integers do not overflow here (all quantities are small counts and
second-granularity timestamps), so Nat models the JavaScript numbers directly.
-/

namespace RateGate

/-! ## Data model -/

/-- An inbound admission check: the rate-limit identity it is issued for and
its timestamp in seconds.  Concurrency across server processes is modelled by
the serialized order in which the shared store applies the checks (the spec's
concurrency model: the store serializes concurrent increments atomically). -/
structure Check where
  id : String
  t : Nat
deriving DecidableEq, Repr

/-- The outcome of a single admission check (the spec's RateLimitDecision):
identity, timestamp, and whether the request was allowed. -/
structure Decision where
  id : String
  t : Nat
  allowed : Bool
deriving DecidableEq, Repr

/-- The shared counter store: per identity, the recorded timestamps of
admitted requests.  Lazily created: unused identities map to `[]`. -/
abbrev Store := String → List Nat

/-- Pointwise update of the store at one identity. -/
def Store.update (s : Store) (k : String) (v : List Nat) : Store :=
  fun x => if x = k then v else s x

/-- The store before any request: every identity's counter state is empty. -/
def emptyStore : Store := fun _ => []

/-- A recorded timestamp `t` is still inside the trailing window of length `w`
seconds as seen from time `now`: it is strictly newer than `now - w`. -/
def live (w now t : Nat) : Bool := decide (now < t + w)

/-- Timestamp `t` falls inside the half-open window `[a, a + w)`. -/
def inWindow (w a t : Nat) : Bool := decide (a ≤ t ∧ t < a + w)

/-! ## The sliding-window admission algorithm

Modelled from the spec: the algorithm itself lives in the `@upstash/ratelimit`
library (`Ratelimit.slidingWindow`), whose source is not part of this
repository; the spec's §4.1 describes it: on each check, discard entries older
than `windowSizeSeconds` from now; if fewer than `limit` remain, record this
attempt and allow; otherwise deny without recording. -/

/-- One admission check against a single identity's recorded entries.
Modelled from the spec: sliding-window check of the `@upstash/ratelimit`
library (not under this repository's sources). -/
def admitStep (limit w : Nat) (entries : List Nat) (now : Nat) : Bool × List Nat :=
  let liveEntries := entries.filter (live w now)
  if liveEntries.length < limit then (true, now :: liveEntries)
  else (false, entries)

/-- Run a chronological sequence of admission checks for one identity,
threading its entry list; returns the final entries and each check's
timestamped outcome. -/
def runId (limit w : Nat) : List Nat → List Nat → List Nat × List (Nat × Bool)
  | entries, [] => (entries, [])
  | entries, now :: rest =>
    let step := admitStep limit w entries now
    let cont := runId limit w step.2 rest
    (cont.1, (now, step.1) :: cont.2)

/-- The spec's `checkAndAdmit(identity)`: one atomic admission check against
the shared store, reading and updating only the given identity's entries. -/
def checkAndAdmit (limit w : Nat) (store : Store) (identity : String) (now : Nat) :
    Bool × Store :=
  let step := admitStep limit w (store identity) now
  (step.1, Store.update store identity step.2)

/-- Run a serialized trace of admission checks (possibly from many server
processes, for many identities) against the shared store. -/
def runChecks (limit w : Nat) : Store → List Check → Store × List Decision
  | store, [] => (store, [])
  | store, c :: rest =>
    let step := checkAndAdmit limit w store c.id c.t
    let cont := runChecks limit w step.2 rest
    (cont.1, { id := c.id, t := c.t, allowed := step.1 } :: cont.2)

/-- The timestamps of the checks in a trace that target one identity. -/
def timesOf (identity : String) (cs : List Check) : List Nat :=
  (cs.filter (fun c => c.id == identity)).map Check.t

/-- Number of decisions for `identity` marked allowed whose timestamp lies in
the window `[a, a + w)`. -/
def allowedInWindow (w a : Nat) (identity : String) (out : List Decision) : Nat :=
  (out.filter (fun d => d.id == identity && (d.allowed && inWindow w a d.t))).length

/-! ## Limiter configuration (backend/src/config/upstash.js) -/

/-- The hardcoded request limit of `Ratelimit.slidingWindow(100, '60 s')`. -/
def slidingWindowLimit : Nat := 100

/-- The hardcoded window length in seconds of
`Ratelimit.slidingWindow(100, '60 s')` (the literal '60 s'). -/
def slidingWindowSeconds : Nat := 60

/-- Environment variable holding the Upstash Redis REST endpoint. -/
def upstashUrlVar : String := "UPSTASH_REDIS_REST_URL"

/-- Environment variable holding the Upstash Redis REST token. -/
def upstashTokenVar : String := "UPSTASH_REDIS_REST_TOKEN"

/-- Connection credentials of the shared counter store. -/
structure RedisConn where
  url : String
  token : String
deriving DecidableEq, Repr

/-- Modelled from the spec: `Redis.fromEnv()` is `@upstash/redis` library code
not under this repository's sources; per the spec's configuration surface it
takes the store's URL and token from the environment variables
`UPSTASH_REDIS_REST_URL` and `UPSTASH_REDIS_REST_TOKEN`. -/
def redisFromEnv (env : String → Option String) : Option RedisConn :=
  match env upstashUrlVar, env upstashTokenVar with
  | some u, some t => some { url := u, token := t }
  | _, _ => none

/-- The configured limiter: credentials plus the sliding-window parameters. -/
structure RatelimitInstance where
  redis : RedisConn
  limit : Nat
  windowSeconds : Nat
deriving DecidableEq, Repr

/-- The `ratelimit` instance of backend/src/config/upstash.js:
`new Ratelimit({ redis: Redis.fromEnv(), limiter: Ratelimit.slidingWindow(100, '60 s') })`,
as a function of the process environment. -/
def ratelimit (env : String → Option String) : Option RatelimitInstance :=
  (redisFromEnv env).map
    (fun r => { redis := r, limit := slidingWindowLimit,
                windowSeconds := slidingWindowSeconds })

/-! ## The middleware (backend/src/middleware/rateLimiter.js) -/

/-- An error raised by the shared counter store (the awaited
`ratelimit.limit` call rejecting). -/
inductive StoreError where
  | unreachable
  | internal (msg : String)
deriving DecidableEq, Repr

/-- What the middleware does with a request: send a JSON response with a
status and message, pass control to the next handler, or pass an error to the
framework's error-handling path (`next(error)`). -/
inductive MwOutcome where
  | respond (status : Nat) (message : String)
  | next
  | nextError (e : StoreError)
deriving DecidableEq, Repr

/-- An inbound HTTP request as seen by the middleware. -/
structure Request where
  method : String
  path : String
  headers : List (String × String)
  body : String
deriving DecidableEq, Repr

/-- The message of the 429 response body
(`{ message: 'Too many requests, please try again later' }`). -/
def tooManyRequestsMessage : String := "Too many requests, please try again later"

/-- The identity string the middleware passes to `ratelimit.limit` for a
request: the literal 'my-rate-limit', whatever the request. -/
def rateLimitIdentity (req : Request) : String := "my-rate-limit"

/-- The `rateLimiter` middleware of backend/src/middleware/rateLimiter.js, as
a function of the store call's result: on rejection the catch block calls
`next(error)`; on `success` false it returns the 429 JSON response; otherwise
it calls `next()`. -/
def rateLimiter (limitResult : Except StoreError Bool) : MwOutcome :=
  match limitResult with
  | Except.error e => MwOutcome.nextError e
  | Except.ok success =>
    if !success then MwOutcome.respond 429 tooManyRequestsMessage
    else MwOutcome.next

/-- One request through the middleware against the (error-free) store: the
admission check uses `rateLimitIdentity req`, and the middleware acts on its
outcome. -/
def handleRequest (store : Store) (now : Nat) (req : Request) : MwOutcome × Store :=
  let step := checkAndAdmit slidingWindowLimit slidingWindowSeconds store
    (rateLimitIdentity req) now
  (rateLimiter (Except.ok step.1), step.2)

/-! ## The app wiring (server.js, staged in src/README.md:287-501) -/

/-- An HTTP response as the routes of server.js produce it: a status code and
a flat list of JSON body fields; the root endpoint's nested `endpoints`
object is flattened to dotted keys, and non-JSON bodies (Express's default
404 and error pages) carry no fields. -/
structure HttpResponse where
  status : Nat
  fields : List (String × String)
deriving DecidableEq, Repr

/-- The route layer of server.js behind the middleware, embedded from the
server.js source staged in src/README.md:287-501, in registration order:
`app.get('/health', …)` answers a GET for /health with 200 and
`{ status: 'OK', timestamp: … }`; `app.use('/api/notes', notesRoutes)` hands
any request at or under the /api/notes mount to the notes router, an external
collaborator passed in as a parameter; `app.get('/', …)` answers a GET for /
with 200 and the API info payload; any other request falls through to
Express's default 404 handler.  `timestamp` stands for the serialized current
time `new Date().toISOString()` of the handlers. -/
def routeFor (notesRouter : Request → HttpResponse) (timestamp : String)
    (req : Request) : HttpResponse :=
  if req.method = "GET" ∧ req.path = "/health" then
    { status := 200, fields := [("status", "OK"), ("timestamp", timestamp)] }
  else if req.path = "/api/notes" ∨
      List.isPrefixOf "/api/notes/".data req.path.data = true then
    notesRouter req
  else if req.method = "GET" ∧ req.path = "/" then
    { status := 200,
      fields := [("message", "Dex Note Taking App Backend API"),
        ("endpoints.health", "/health"), ("endpoints.notes", "/api/notes"),
        ("timestamp", timestamp)] }
  else
    { status := 404, fields := [] }

/-- The Express app pipeline of server.js, embedded from the server.js source
staged in src/README.md:287-501: after the pass-through CORS and JSON-parsing
middleware, `app.use(rateLimiter)` is registered ahead of every route, so a
request reaches the route layer only when the middleware calls `next()`; on
denial the middleware's own `res.status(429).json({ message: … })` is the
response; on `next(error)` Express's default error handler answers 500. -/
def appHandle (notesRouter : Request → HttpResponse) (timestamp : String)
    (store : Store) (now : Nat) (req : Request) : HttpResponse × Store :=
  match handleRequest store now req with
  | (MwOutcome.respond s m, store2) =>
    ({ status := s, fields := [("message", m)] }, store2)
  | (MwOutcome.next, store2) => (routeFor notesRouter timestamp req, store2)
  | (MwOutcome.nextError _, store2) => ({ status := 500, fields := [] }, store2)

/-- Number of admitted outcomes in a single-identity run whose timestamp lies
in the window `[a, a + w)`. -/
def allowedCount (w a : Nat) (out : List (Nat × Bool)) : Nat :=
  (out.filter (fun p => p.2 && inWindow w a p.1)).length

/-- Ghost invariant of the window-bound proof: seen from any time `T ≥ tmin`,
the stored entries and the complete history of admitted timestamps agree once
aged-out timestamps are discarded. -/
def EntriesInv (w tmin : Nat) (entries past : List Nat) : Prop :=
  ∀ T, tmin ≤ T → entries.filter (live w T) = past.filter (live w T)

/-- Concrete environment used to witness the configuration claim. -/
def envC7 : String → Option String := fun s =>
  if s = upstashUrlVar then some "https://example.upstash.io"
  else if s = upstashTokenVar then some "token123" else none

/-- The limiter instance `ratelimit` builds out of `envC7`. -/
def instC7 : RatelimitInstance :=
  { redis := { url := "https://example.upstash.io", token := "token123" },
    limit := 100, windowSeconds := 60 }

/-- Concrete trace used to witness the window-bound claim. -/
def csC1 : List Check :=
  [{ id := "x", t := 0 }, { id := "x", t := 1 }]

/-- Concrete boundary-burst trace used to witness the double-burst claim. -/
def csC5 : List Check :=
  [{ id := "y", t := 0 }, { id := "y", t := 59 }, { id := "y", t := 59 }]

/-- Concrete full-window entries (one aged out) used to witness the recovery
claim: the earliest of 100 recorded timestamps has aged past the window at
time 60. -/
def entriesC6 : List Nat := 0 :: List.replicate 99 1

/-- Concrete two-identity trace used to witness the isolation claim. -/
def csC9 : List Check :=
  [{ id := "a", t := 0 }, { id := "b", t := 0 },
   { id := "a", t := 0 }, { id := "b", t := 0 }]

/-- Concrete health-check request used to witness the global-gating claim. -/
def reqHealth : Request :=
  { method := "GET", path := "/health", headers := [], body := "" }

/-- Concrete root request used to witness the constant-identity claim. -/
def reqRoot : Request :=
  { method := "GET", path := "/", headers := [], body := "" }

/-- Stub notes router used to witness the global-gating claim (the notes
routes are an external collaborator of the core, abstracted behind the
/api/notes mount). -/
def notesRouterC10 : Request → HttpResponse :=
  fun _ => { status := 200, fields := [] }

/-- Fixed serialized time used to witness the global-gating claim. -/
def timestampC10 : String := "2024-01-01T00:00:00.000Z"

/-! ## Helper lemmas -/

theorem live_mono {w t T x : Nat} (ht : t ≤ T) (h : live w T x = true) :
    live w t x = true := by
  simp only [live, decide_eq_true_eq] at h ⊢
  exact lt_of_le_of_lt ht h

theorem filter_live_filter_live {w t T : Nat} (l : List Nat) (ht : t ≤ T) :
    (l.filter (live w t)).filter (live w T) = l.filter (live w T) := by
  rw [List.filter_filter]
  refine List.filter_congr ?_
  intro x _
  cases h : live w T x with
  | true => simp [live_mono ht h]
  | false => simp

theorem inWindow_imp_live {w a t x : Nat} (htw : t < a + w)
    (h : inWindow w a x = true) : live w t x = true := by
  simp only [inWindow, decide_eq_true_eq] at h
  simp only [live, decide_eq_true_eq]
  calc t < a + w := htw
    _ ≤ x + w := Nat.add_le_add_right h.1 w

theorem runId_nil (limit w : Nat) (entries : List Nat) :
    runId limit w entries [] = (entries, []) := rfl

theorem runId_cons (limit w : Nat) (entries : List Nat) (now : Nat)
    (rest : List Nat) :
    runId limit w entries (now :: rest) =
      ((runId limit w (admitStep limit w entries now).2 rest).1,
        (now, (admitStep limit w entries now).1) ::
          (runId limit w (admitStep limit w entries now).2 rest).2) := rfl

theorem admitStep_fst_pos {limit w : Nat} {entries : List Nat} {now : Nat}
    (h : (entries.filter (live w now)).length < limit) :
    (admitStep limit w entries now).1 = true := by
  simp [admitStep, h]

theorem admitStep_snd_pos {limit w : Nat} {entries : List Nat} {now : Nat}
    (h : (entries.filter (live w now)).length < limit) :
    (admitStep limit w entries now).2 = now :: entries.filter (live w now) := by
  simp [admitStep, h]

theorem admitStep_fst_neg {limit w : Nat} {entries : List Nat} {now : Nat}
    (h : ¬(entries.filter (live w now)).length < limit) :
    (admitStep limit w entries now).1 = false := by
  simp [admitStep, h]

theorem admitStep_snd_neg {limit w : Nat} {entries : List Nat} {now : Nat}
    (h : ¬(entries.filter (live w now)).length < limit) :
    (admitStep limit w entries now).2 = entries := by
  simp [admitStep, h]

theorem allowedCount_cons_of_true {w a : Nat} {p : Nat × Bool}
    (out : List (Nat × Bool)) (h : (p.2 && inWindow w a p.1) = true) :
    allowedCount w a (p :: out) = allowedCount w a out + 1 := by
  simp [allowedCount, List.filter_cons, h]

theorem allowedCount_cons_of_false {w a : Nat} {p : Nat × Bool}
    (out : List (Nat × Bool)) (h : (p.2 && inWindow w a p.1) = false) :
    allowedCount w a (p :: out) = allowedCount w a out := by
  simp [allowedCount, List.filter_cons, h]

/-- Main induction for the sliding-window bound: running any chronological
sequence of checks for one identity, starting from entries that agree (up to
aging) with a ghost history `past`, admits at most `limit` checks inside any
window `[a, a + w)` once `past`'s own in-window admissions are counted. -/
theorem runId_window_bound_aux (limit w a : Nat) :
    ∀ (ts : List Nat) (entries past : List Nat) (tmin : Nat),
      List.Pairwise (· ≤ ·) ts →
      (∀ t ∈ ts, tmin ≤ t) →
      EntriesInv w tmin entries past →
      allowedCount w a ((runId limit w entries ts).2) +
          (past.filter (inWindow w a)).length ≤
        max limit (past.filter (inWindow w a)).length := by
  intro ts
  induction ts with
  | nil =>
    intro entries past tmin _ _ _
    simp [runId_nil, allowedCount]
  | cons now rest ih =>
    intro entries past tmin hpw hge hinv
    have hnow_ge : tmin ≤ now := hge now (List.mem_cons_self now rest)
    obtain ⟨hrest_ge, hpw_rest⟩ := List.pairwise_cons.mp hpw
    rw [runId_cons]
    by_cases hadm : (entries.filter (live w now)).length < limit
    · -- the check at `now` is admitted
      rw [admitStep_fst_pos hadm, admitStep_snd_pos hadm]
      have hinv2 : EntriesInv w now (now :: entries.filter (live w now))
          (now :: past) := by
        intro T hT
        have h1 : (entries.filter (live w now)).filter (live w T) =
            past.filter (live w T) := by
          rw [filter_live_filter_live entries hT]
          exact hinv T (le_trans hnow_ge hT)
        cases hnl : live w T now <;>
          simp [List.filter_cons, hnl, h1,
            ← hinv T (le_trans hnow_ge hT)]
      have hbound := ih (now :: entries.filter (live w now)) (now :: past) now
        hpw_rest hrest_ge hinv2
      by_cases hwin : inWindow w a now = true
      · -- the admitted check falls inside the window [a, a + w)
        have hnow_lt : now < a + w := by
          have := of_decide_eq_true hwin
          exact this.2
        have hpc : (past.filter (inWindow w a)).length <
            (entries.filter (live w now)).length + 1 := by
          have hmono : (past.filter (inWindow w a)).length ≤
              (past.filter (live w now)).length :=
            (List.monotone_filter_right past
              (fun x hx => inWindow_imp_live hnow_lt hx)).length_le
          have heq : past.filter (live w now) = entries.filter (live w now) :=
            (hinv now hnow_ge).symm
          rw [heq] at hmono
          omega
        have hpast_cons : ((now :: past).filter (inWindow w a)).length =
            (past.filter (inWindow w a)).length + 1 := by
          simp [List.filter_cons, hwin]
        rw [hpast_cons] at hbound
        rw [allowedCount_cons_of_true _ (by simp [hwin])]
        omega
      · have hwin' : inWindow w a now = false := by
          cases h : inWindow w a now
          · rfl
          · exact absurd h hwin
        have hpast_cons : ((now :: past).filter (inWindow w a)).length =
            (past.filter (inWindow w a)).length := by
          simp [List.filter_cons, hwin']
        rw [hpast_cons] at hbound
        rw [allowedCount_cons_of_false _ (by simp [hwin'])]
        omega
    · -- the check at `now` is denied: no state change, nothing counted
      rw [admitStep_fst_neg hadm, admitStep_snd_neg hadm]
      have hinv2 : EntriesInv w now entries past :=
        fun T hT => hinv T (le_trans hnow_ge hT)
      have hbound := ih entries past now hpw_rest hrest_ge hinv2
      rw [allowedCount_cons_of_false _ (by simp)]
      omega

theorem Store.update_same (s : Store) (k : String) (v : List Nat) :
    Store.update s k v k = v := by
  simp [Store.update]

theorem Store.update_ne (s : Store) (k : String) (v : List Nat) (x : String)
    (h : ¬x = k) : Store.update s k v x = s x := by
  simp [Store.update, h]

theorem runChecks_nil (limit w : Nat) (store : Store) :
    runChecks limit w store [] = (store, []) := rfl

theorem runChecks_cons (limit w : Nat) (store : Store) (c : Check)
    (rest : List Check) :
    runChecks limit w store (c :: rest) =
      ((runChecks limit w (checkAndAdmit limit w store c.id c.t).2 rest).1,
        { id := c.id, t := c.t,
          allowed := (checkAndAdmit limit w store c.id c.t).1 } ::
          (runChecks limit w (checkAndAdmit limit w store c.id c.t).2 rest).2) := rfl

theorem timesOf_nil (identity : String) : timesOf identity [] = [] := rfl

theorem timesOf_cons_eq {identity : String} {c : Check} (rest : List Check)
    (h : c.id = identity) :
    timesOf identity (c :: rest) = c.t :: timesOf identity rest := by
  simp [timesOf, List.filter_cons, h]

theorem timesOf_cons_ne {identity : String} {c : Check} (rest : List Check)
    (h : ¬c.id = identity) :
    timesOf identity (c :: rest) = timesOf identity rest := by
  simp [timesOf, List.filter_cons, h]

theorem checkAndAdmit_fst (limit w : Nat) (store : Store) (k : String)
    (now : Nat) :
    (checkAndAdmit limit w store k now).1 = (admitStep limit w (store k) now).1 := rfl

theorem checkAndAdmit_snd_same (limit w : Nat) (store : Store) (k : String)
    (now : Nat) :
    (checkAndAdmit limit w store k now).2 k = (admitStep limit w (store k) now).2 := by
  unfold checkAndAdmit
  exact Store.update_same _ _ _

theorem checkAndAdmit_snd_ne (limit w : Nat) (store : Store) (k x : String)
    (now : Nat) (h : ¬x = k) :
    (checkAndAdmit limit w store k now).2 x = store x := by
  unfold checkAndAdmit
  exact Store.update_ne _ _ _ _ h

/-- The shared store run projects, identity by identity, onto the
single-identity run: the final entries of `identity` only depend on the checks
that target it. -/
theorem runChecks_store_proj (limit w : Nat) :
    ∀ (cs : List Check) (store : Store) (identity : String),
      (runChecks limit w store cs).1 identity =
        (runId limit w (store identity) (timesOf identity cs)).1 := by
  intro cs
  induction cs with
  | nil => intro store identity; rfl
  | cons c rest ih =>
    intro store identity
    rw [runChecks_cons]
    by_cases hid : c.id = identity
    · rw [timesOf_cons_eq rest hid, runId_cons, ih]
      subst hid
      rw [checkAndAdmit_snd_same]
    · rw [timesOf_cons_ne rest hid, ih]
      rw [checkAndAdmit_snd_ne limit w store c.id identity c.t
        (fun hx => hid hx.symm)]

/-- The decisions a shared store run emits for one identity are exactly the
decisions of the single-identity run over that identity's checks. -/
theorem runChecks_out_proj (limit w : Nat) :
    ∀ (cs : List Check) (store : Store) (identity : String),
      ((runChecks limit w store cs).2).filter (fun d => d.id == identity) =
        ((runId limit w (store identity) (timesOf identity cs)).2).map
          (fun p => { id := identity, t := p.1, allowed := p.2 }) := by
  intro cs
  induction cs with
  | nil => intro store identity; rfl
  | cons c rest ih =>
    intro store identity
    rw [runChecks_cons]
    by_cases hid : c.id = identity
    · rw [timesOf_cons_eq rest hid, runId_cons, List.filter_cons]
      simp only [hid, beq_self_eq_true, if_true, List.map_cons]
      subst hid
      rw [ih, checkAndAdmit_snd_same, checkAndAdmit_fst]
    · rw [timesOf_cons_ne rest hid, List.filter_cons]
      have hbeq : (c.id == identity) = false := beq_eq_false_iff_ne.mpr hid
      rw [hbeq, if_neg Bool.false_ne_true]
      rw [ih, checkAndAdmit_snd_ne limit w store c.id identity c.t
        (fun hx => hid hx.symm)]

/-- Counting an identity's admitted in-window decisions commutes with the
projection onto that identity's single-identity run. -/
theorem allowedInWindow_proj (limit w a : Nat) (cs : List Check)
    (store : Store) (identity : String) :
    allowedInWindow w a identity ((runChecks limit w store cs).2) =
      allowedCount w a
        ((runId limit w (store identity) (timesOf identity cs)).2) := by
  unfold allowedInWindow
  have h1 : ((runChecks limit w store cs).2).filter
        (fun d => d.id == identity && (d.allowed && inWindow w a d.t)) =
      (((runChecks limit w store cs).2).filter
          (fun d => d.id == identity)).filter
        (fun d => d.allowed && inWindow w a d.t) := by
    rw [List.filter_filter]
    exact List.filter_congr (fun x _ => Bool.and_comm _ _)
  rw [h1, runChecks_out_proj, List.filter_map, List.length_map]
  rfl

/-- Window bound for the deployed configuration: a serialized chronological
trace of admission checks against a fresh store yields at most
`slidingWindowLimit` allowed decisions per identity inside any window
`[a, a + slidingWindowSeconds)`. -/
theorem runChecks_window_bound (cs : List Check) (identity : String) (a : Nat)
    (hchrono : List.Pairwise (· ≤ ·) (cs.map Check.t)) :
    allowedInWindow slidingWindowSeconds a identity
        ((runChecks slidingWindowLimit slidingWindowSeconds emptyStore cs).2) ≤
      slidingWindowLimit := by
  rw [allowedInWindow_proj]
  have hsorted : List.Pairwise (· ≤ ·) (timesOf identity cs) := by
    unfold timesOf
    exact List.Pairwise.sublist
      (List.Sublist.map Check.t (List.filter_sublist cs)) hchrono
  have hmain := runId_window_bound_aux slidingWindowLimit slidingWindowSeconds a
    (timesOf identity cs) (emptyStore identity) [] 0 hsorted
    (fun t _ => Nat.zero_le t) (fun T _ => rfl)
  simpa using hmain

/-- If an identity is targeted by at most `limit` checks in the whole trace,
every one of them is admitted, whatever its entries' timestamps. -/
theorem runId_all_admitted (limit w : Nat) :
    ∀ (ts : List Nat) (entries : List Nat),
      entries.length + ts.length ≤ limit →
      (runId limit w entries ts).2 = ts.map (fun t => (t, true)) := by
  intro ts
  induction ts with
  | nil => intro entries _; rfl
  | cons now rest ih =>
    intro entries h
    have hfl := List.length_filter_le (live w now) entries
    have hlt : (entries.filter (live w now)).length < limit := by
      simp only [List.length_cons] at h
      omega
    have hstep : (runId limit w entries (now :: rest)).2 =
        (now, (admitStep limit w entries now).1) ::
          (runId limit w (admitStep limit w entries now).2 rest).2 := rfl
    rw [hstep, admitStep_fst_pos hlt, admitStep_snd_pos hlt, List.map_cons]
    refine congrArg (List.cons (now, true)) (ih _ ?_)
    simp only [List.length_cons] at h ⊢
    omega

/-- Every check of an identity that receives at most `slidingWindowLimit`
checks in the trace is admitted, however many checks other identities issue
around it. -/
theorem runChecks_full_admission (cs : List Check) (identity : String)
    (h : (cs.filter (fun c => c.id == identity)).length ≤ slidingWindowLimit) :
    (((runChecks slidingWindowLimit slidingWindowSeconds emptyStore cs).2).filter
        (fun d => d.id == identity && d.allowed)).length =
      (cs.filter (fun c => c.id == identity)).length := by
  have hlen : (timesOf identity cs).length =
      (cs.filter (fun c => c.id == identity)).length := by
    unfold timesOf
    rw [List.length_map]
  have hle : (emptyStore identity).length + (timesOf identity cs).length ≤
      slidingWindowLimit := by
    simpa [emptyStore, hlen] using h
  have h1 : ((runChecks slidingWindowLimit slidingWindowSeconds
          emptyStore cs).2).filter (fun d => d.id == identity && d.allowed) =
      (((runChecks slidingWindowLimit slidingWindowSeconds
          emptyStore cs).2).filter (fun d => d.id == identity)).filter
        (fun d => d.allowed) := by
    rw [List.filter_filter]
    exact List.filter_congr (fun x _ => Bool.and_comm _ _)
  rw [h1, runChecks_out_proj, List.filter_map, List.length_map,
    runId_all_admitted slidingWindowLimit slidingWindowSeconds
      (timesOf identity cs) (emptyStore identity) hle,
    List.filter_map, List.length_map]
  rw [show (((fun d : Decision => d.allowed) ∘
      (fun p : Nat × Bool => { id := identity, t := p.1, allowed := p.2 })) ∘
      (fun t : Nat => (t, true))) = (fun _ : Nat => true) from rfl]
  rw [List.filter_true, hlen]

/-- Checks never touch the counter state of an identity they do not target. -/
theorem runChecks_frame (cs : List Check) (store : Store) (idc : String)
    (h : ∀ c ∈ cs, ¬c.id = idc) :
    (runChecks slidingWindowLimit slidingWindowSeconds store cs).1 idc =
      store idc := by
  rw [runChecks_store_proj]
  have hnil : timesOf idc cs = [] := by
    unfold timesOf
    rw [List.filter_eq_nil_iff.mpr (fun c hc => by simp [h c hc])]
    rfl
  rw [hnil, runId_nil]

/-! ## Claim theorems -/

/-- Claim C2: when the shared counter store rejects with an error, the
`rateLimiter` middleware passes exactly that error to `next(error)` (the
framework's error-handling path); it never calls `next()` normally and never
sends the 429 response. -/
theorem c2_store_error_propagates :
    ∀ e : StoreError,
      rateLimiter (Except.error e) = MwOutcome.nextError e ∧
      rateLimiter (Except.error e) ≠ MwOutcome.next ∧
      ∀ status msg, rateLimiter (Except.error e) ≠ MwOutcome.respond status msg := by
  intro e
  refine ⟨rfl, by simp [rateLimiter], ?_⟩
  intro status msg
  simp [rateLimiter]

/-- Claim C3: on `allowed = false` the middleware short-circuits: it responds
with status 429 and the constant JSON message "Too many requests, please try
again later" (no internal details), and it neither calls `next()` nor
`next(error)`, so no downstream handler runs. -/
theorem c3_denied_short_circuits :
    rateLimiter (Except.ok false) = MwOutcome.respond 429 tooManyRequestsMessage ∧
    tooManyRequestsMessage = "Too many requests, please try again later" ∧
    rateLimiter (Except.ok false) ≠ MwOutcome.next ∧
    ∀ e, rateLimiter (Except.ok false) ≠ MwOutcome.nextError e := by
  refine ⟨rfl, rfl, by simp [rateLimiter], ?_⟩
  intro e
  simp [rateLimiter]

/-- Witness for C2 at a concrete store error. -/
theorem c2_store_error_propagates_witness :
    rateLimiter (Except.error StoreError.unreachable) =
        MwOutcome.nextError StoreError.unreachable ∧
    rateLimiter (Except.error StoreError.unreachable) ≠ MwOutcome.next ∧
    rateLimiter (Except.error StoreError.unreachable) ≠
      MwOutcome.respond 429 tooManyRequestsMessage :=
  ⟨(c2_store_error_propagates StoreError.unreachable).1,
    (c2_store_error_propagates StoreError.unreachable).2.1,
    (c2_store_error_propagates StoreError.unreachable).2.2 429
      tooManyRequestsMessage⟩

/-- Witness for C3 at a concrete error value for the last conjunct. -/
theorem c3_denied_short_circuits_witness :
    rateLimiter (Except.ok false) =
        MwOutcome.respond 429 tooManyRequestsMessage ∧
    tooManyRequestsMessage = "Too many requests, please try again later" ∧
    rateLimiter (Except.ok false) ≠ MwOutcome.next ∧
    rateLimiter (Except.ok false) ≠
      MwOutcome.nextError StoreError.unreachable :=
  ⟨c3_denied_short_circuits.1, c3_denied_short_circuits.2.1,
    c3_denied_short_circuits.2.2.1,
    c3_denied_short_circuits.2.2.2 StoreError.unreachable⟩

/-- Claim C4: the identity passed to the limiter is the constant
'my-rate-limit' for every request, so the middleware's admission handling of a
request does not depend on any property of the request: the limiter is one
shared global throttle. -/
theorem c4_constant_identity :
    ∀ (req1 req2 : Request) (store : Store) (now : Nat),
      rateLimitIdentity req1 = "my-rate-limit" ∧
      rateLimitIdentity req1 = rateLimitIdentity req2 ∧
      handleRequest store now req1 = handleRequest store now req2 := by
  intro req1 req2 store now
  exact ⟨rfl, rfl, rfl⟩

/-- Witness for C4 at two concrete, different requests. -/
theorem c4_constant_identity_witness :
    rateLimitIdentity reqHealth = "my-rate-limit" ∧
    rateLimitIdentity reqHealth = rateLimitIdentity reqRoot ∧
    handleRequest emptyStore 0 reqHealth = handleRequest emptyStore 0 reqRoot :=
  c4_constant_identity reqHealth reqRoot emptyStore 0

/-- Claim C7: the limiter is configured with the hardcoded constants
limit = 100 and windowSizeSeconds = 60 — every instance built from any
environment carries exactly these values — while the store connection URL and
token are taken from the `UPSTASH_REDIS_REST_URL` and
`UPSTASH_REDIS_REST_TOKEN` environment variables. -/
theorem c7_hardcoded_config :
    slidingWindowLimit = 100 ∧ slidingWindowSeconds = 60 ∧
    ∀ (env : String → Option String) (inst : RatelimitInstance),
      ratelimit env = some inst →
      inst.limit = 100 ∧ inst.windowSeconds = 60 ∧
      env upstashUrlVar = some inst.redis.url ∧
      env upstashTokenVar = some inst.redis.token := by
  refine ⟨rfl, rfl, ?_⟩
  intro env inst h
  unfold ratelimit redisFromEnv at h
  cases hu : env upstashUrlVar with
  | none => rw [hu] at h; simp at h
  | some u =>
    cases ht : env upstashTokenVar with
    | none => rw [hu, ht] at h; simp at h
    | some t =>
      rw [hu, ht] at h
      simp only [Option.map_some'] at h
      cases h
      exact ⟨rfl, rfl, rfl, rfl⟩

/-- Witness for C7 at a concrete environment. -/
theorem c7_hardcoded_config_witness :
    ratelimit envC7 = some instC7 ∧
    (instC7.limit = 100 ∧ instC7.windowSeconds = 60 ∧
      envC7 upstashUrlVar = some instC7.redis.url ∧
      envC7 upstashTokenVar = some instC7.redis.token) :=
  ⟨by decide, c7_hardcoded_config.2.2 envC7 instC7 (by decide)⟩

/-- Claim C8: an admission decision is derived solely from the shared store's
state for the identity at the time of the call (the gate keeps no in-process
memory): two checks made against stores that agree on the identity's entries
yield the same decision and the same updated entries, in any process. -/
theorem c8_store_determined :
    ∀ (s1 s2 : Store) (identity : String) (now : Nat),
      s1 identity = s2 identity →
      (checkAndAdmit slidingWindowLimit slidingWindowSeconds s1 identity now).1 =
        (checkAndAdmit slidingWindowLimit slidingWindowSeconds s2 identity now).1 ∧
      (checkAndAdmit slidingWindowLimit slidingWindowSeconds s1 identity now).2
          identity =
        (checkAndAdmit slidingWindowLimit slidingWindowSeconds s2 identity now).2
          identity := by
  intro s1 s2 idk now h
  unfold checkAndAdmit
  rw [h]
  refine ⟨rfl, ?_⟩
  simp [Store.update]

/-- Witness for C8: two stores differing away from the identity but agreeing
on it produce identical decisions. -/
theorem c8_store_determined_witness :
    emptyStore "my-rate-limit" =
        Store.update emptyStore "other" [5] "my-rate-limit" ∧
    ((checkAndAdmit slidingWindowLimit slidingWindowSeconds emptyStore
          "my-rate-limit" 0).1 =
      (checkAndAdmit slidingWindowLimit slidingWindowSeconds
          (Store.update emptyStore "other" [5]) "my-rate-limit" 0).1 ∧
    (checkAndAdmit slidingWindowLimit slidingWindowSeconds emptyStore
          "my-rate-limit" 0).2 "my-rate-limit" =
      (checkAndAdmit slidingWindowLimit slidingWindowSeconds
          (Store.update emptyStore "other" [5]) "my-rate-limit" 0).2
        "my-rate-limit") :=
  ⟨by decide, c8_store_determined emptyStore
    (Store.update emptyStore "other" [5]) "my-rate-limit" 0 (by decide)⟩

/-- Claim C1: for a fixed identity, within any rolling window of
`slidingWindowSeconds` (60) seconds, at most `slidingWindowLimit` (100) checks
of a serialized chronological trace are allowed — equivalently, every check
beyond the limit inside the window is denied — however many server processes
issue the checks, since the shared store serializes them into one trace. -/
theorem c1_window_bound (cs : List Check) (identity : String) (a : Nat)
    (hchrono : List.Pairwise (· ≤ ·) (cs.map Check.t)) :
    allowedInWindow slidingWindowSeconds a identity
        ((runChecks slidingWindowLimit slidingWindowSeconds emptyStore cs).2) ≤
      slidingWindowLimit :=
  runChecks_window_bound cs identity a hchrono

/-- Witness for C1 on a concrete two-check trace. -/
theorem c1_window_bound_witness :
    List.Pairwise (· ≤ ·) (csC1.map Check.t) ∧
    allowedInWindow slidingWindowSeconds 0 "x"
        ((runChecks slidingWindowLimit slidingWindowSeconds emptyStore csC1).2) ≤
      slidingWindowLimit :=
  ⟨by decide, c1_window_bound csC1 "x" 0 (by decide)⟩

/-- Claim C5: the limiter has no fixed-window boundary double-burst: for any
serialized chronological trace — in particular `limit` admissions at time `t`
followed by `limit` more checks at `t + slidingWindowSeconds - ε` — the number
of allowed checks with timestamps inside the single window
`[t, t + slidingWindowSeconds)` never reaches `2 × slidingWindowLimit`. -/
theorem c5_no_double_burst (cs : List Check) (identity : String) (t : Nat)
    (hchrono : List.Pairwise (· ≤ ·) (cs.map Check.t)) :
    allowedInWindow slidingWindowSeconds t identity
        ((runChecks slidingWindowLimit slidingWindowSeconds emptyStore cs).2) <
      2 * slidingWindowLimit := by
  have h := runChecks_window_bound cs identity t hchrono
  have h2 : slidingWindowLimit < 2 * slidingWindowLimit := by
    unfold slidingWindowLimit
    omega
  omega

/-- Witness for C5 on a concrete boundary-burst trace. -/
theorem c5_no_double_burst_witness :
    List.Pairwise (· ≤ ·) (csC5.map Check.t) ∧
    allowedInWindow slidingWindowSeconds 0 "y"
        ((runChecks slidingWindowLimit slidingWindowSeconds emptyStore csC5).2) <
      2 * slidingWindowLimit :=
  ⟨by decide, c5_no_double_burst csC5 "y" 0 (by decide)⟩

/-- Claim C6: once the earliest admitted request of a full window (limit
recorded requests, of which `slidingWindowLimit - 1` are still live) ages past
the window, exactly one additional admission becomes available: of two
immediate checks, the first is allowed and the second is denied — monotonic
recovery, not an all-or-nothing reset. -/
theorem c6_window_recovery (entries : List Nat) (T : Nat)
    (hlen : entries.length = slidingWindowLimit)
    (hlive : (entries.filter (live slidingWindowSeconds T)).length =
      slidingWindowLimit - 1) :
    (runId slidingWindowLimit slidingWindowSeconds entries [T, T]).2 =
      [(T, true), (T, false)] := by
  have h99 : (entries.filter (live slidingWindowSeconds T)).length <
      slidingWindowLimit := by
    rw [hlive]
    unfold slidingWindowLimit
    omega
  have hTT : live slidingWindowSeconds T T = true := by
    unfold live slidingWindowSeconds
    simp
  have hsecond : ((T :: entries.filter (live slidingWindowSeconds T)).filter
      (live slidingWindowSeconds T)).length = slidingWindowLimit := by
    rw [List.filter_cons, hTT, if_pos rfl,
      filter_live_filter_live entries (le_refl T), List.length_cons, hlive]
    unfold slidingWindowLimit
    omega
  have hden : ¬((T :: entries.filter (live slidingWindowSeconds T)).filter
      (live slidingWindowSeconds T)).length < slidingWindowLimit := by
    rw [hsecond]
    omega
  have hstep1 : (runId slidingWindowLimit slidingWindowSeconds entries [T, T]).2 =
      (T, (admitStep slidingWindowLimit slidingWindowSeconds entries T).1) ::
        (runId slidingWindowLimit slidingWindowSeconds
          (admitStep slidingWindowLimit slidingWindowSeconds entries T).2 [T]).2 := rfl
  rw [hstep1, admitStep_fst_pos h99, admitStep_snd_pos h99]
  have hstep2 : (runId slidingWindowLimit slidingWindowSeconds
      (T :: entries.filter (live slidingWindowSeconds T)) [T]).2 =
      [(T, (admitStep slidingWindowLimit slidingWindowSeconds
        (T :: entries.filter (live slidingWindowSeconds T)) T).1)] := rfl
  rw [hstep2, admitStep_fst_neg hden]

/-- Witness for C6 on concrete full-window entries. -/
theorem c6_window_recovery_witness :
    entriesC6.length = slidingWindowLimit ∧
    (entriesC6.filter (live slidingWindowSeconds 60)).length =
      slidingWindowLimit - 1 ∧
    (runId slidingWindowLimit slidingWindowSeconds entriesC6 [60, 60]).2 =
      [(60, true), (60, false)] :=
  ⟨by decide, by decide, c6_window_recovery entriesC6 60 (by decide) (by decide)⟩

/-- Claim C9: identities are isolated: any identity targeted by at most
`slidingWindowLimit` checks of the trace — for example each of "a" and "b"
issued 100 checks within the same second — has every one of its checks
admitted, regardless of the other checks interleaved with them, and the
counter state of an identity no check targets stays untouched. -/
theorem c9_identity_isolation (cs : List Check) (ida idb idc : String)
    (ha : (cs.filter (fun c => c.id == ida)).length ≤ slidingWindowLimit)
    (hb : (cs.filter (fun c => c.id == idb)).length ≤ slidingWindowLimit)
    (hc : ∀ c ∈ cs, ¬c.id = idc) :
    (((runChecks slidingWindowLimit slidingWindowSeconds emptyStore cs).2).filter
        (fun d => d.id == ida && d.allowed)).length =
      (cs.filter (fun c => c.id == ida)).length ∧
    (((runChecks slidingWindowLimit slidingWindowSeconds emptyStore cs).2).filter
        (fun d => d.id == idb && d.allowed)).length =
      (cs.filter (fun c => c.id == idb)).length ∧
    (runChecks slidingWindowLimit slidingWindowSeconds emptyStore cs).1 idc =
      emptyStore idc :=
  ⟨runChecks_full_admission cs ida ha, runChecks_full_admission cs idb hb,
    runChecks_frame cs emptyStore idc hc⟩

/-- Witness for C9 on a concrete interleaved two-identity trace. -/
theorem c9_identity_isolation_witness :
    (csC9.filter (fun c => c.id == "a")).length ≤ slidingWindowLimit ∧
    (csC9.filter (fun c => c.id == "b")).length ≤ slidingWindowLimit ∧
    (∀ c ∈ csC9, ¬c.id = "z") ∧
    ((((runChecks slidingWindowLimit slidingWindowSeconds emptyStore csC9).2).filter
        (fun d => d.id == "a" && d.allowed)).length =
      (csC9.filter (fun c => c.id == "a")).length ∧
    (((runChecks slidingWindowLimit slidingWindowSeconds emptyStore csC9).2).filter
        (fun d => d.id == "b" && d.allowed)).length =
      (csC9.filter (fun c => c.id == "b")).length ∧
    (runChecks slidingWindowLimit slidingWindowSeconds emptyStore csC9).1 "z" =
      emptyStore "z") :=
  ⟨by decide, by decide, by decide,
    c9_identity_isolation csC9 "a" "b" "z" (by decide) (by decide) (by decide)⟩

/-- Claim C10: `app.use(rateLimiter)` is registered before every route of
server.js, so a GET request to /health or / also passes through the admission
check: when the global budget has room the request reaches its route handler
and consumes one unit (one more live entry for 'my-rate-limit'); when the
budget is exhausted the client gets the 429 throttled response, which is
never the route's 200 payload. -/
theorem c10_health_gated_globally (notesRouter : Request → HttpResponse)
    (timestamp : String) (store : Store) (now : Nat) (req : Request)
    (hpath : req.path = "/health" ∨ req.path = "/")
    (hmethod : req.method = "GET") :
    appHandle notesRouter timestamp store now req =
      (if ((store "my-rate-limit").filter
            (live slidingWindowSeconds now)).length < slidingWindowLimit then
        (routeFor notesRouter timestamp req,
          Store.update store "my-rate-limit"
            (now :: (store "my-rate-limit").filter (live slidingWindowSeconds now)))
      else
        ({ status := 429, fields := [("message", tooManyRequestsMessage)] },
          Store.update store "my-rate-limit" (store "my-rate-limit"))) ∧
    (((appHandle notesRouter timestamp store now req).2 "my-rate-limit").filter
        (live slidingWindowSeconds now)).length =
      (if ((store "my-rate-limit").filter
            (live slidingWindowSeconds now)).length < slidingWindowLimit then
        ((store "my-rate-limit").filter (live slidingWindowSeconds now)).length + 1
      else
        ((store "my-rate-limit").filter (live slidingWindowSeconds now)).length) ∧
    ({ status := 429, fields := [("message", tooManyRequestsMessage)] } :
        HttpResponse) ≠
      routeFor notesRouter timestamp req := by
  have hTT : live slidingWindowSeconds now now = true := by
    unfold live slidingWindowSeconds
    simp
  have h200 : (routeFor notesRouter timestamp req).status = 200 := by
    unfold routeFor
    cases hpath with
    | inl h => rw [if_pos ⟨hmethod, h⟩]
    | inr h =>
      have hc1 : ¬(req.method = "GET" ∧ req.path = "/health") := by
        rintro ⟨-, hp⟩
        rw [h] at hp
        exact absurd hp (by decide)
      have hc2 : ¬(req.path = "/api/notes" ∨
          List.isPrefixOf "/api/notes/".data req.path.data = true) := by
        rw [h]
        intro hc
        rcases hc with hc | hc
        · exact absurd hc (by decide)
        · exact absurd hc (by decide)
      rw [if_neg hc1, if_neg hc2, if_pos ⟨hmethod, h⟩]
  have hne :
      ({ status := 429, fields := [("message", tooManyRequestsMessage)] } :
        HttpResponse) ≠ routeFor notesRouter timestamp req := by
    intro he
    have hst : (429 : Nat) = (routeFor notesRouter timestamp req).status :=
      congrArg HttpResponse.status he
    rw [h200] at hst
    exact absurd hst (by decide)
  by_cases hadm : ((store "my-rate-limit").filter
      (live slidingWindowSeconds now)).length < slidingWindowLimit
  · rw [if_pos hadm]
    have happ : appHandle notesRouter timestamp store now req =
        (routeFor notesRouter timestamp req,
          Store.update store "my-rate-limit"
            (now :: (store "my-rate-limit").filter
              (live slidingWindowSeconds now))) := by
      simp only [appHandle, handleRequest, rateLimiter, checkAndAdmit,
        rateLimitIdentity, admitStep_fst_pos hadm, admitStep_snd_pos hadm,
        Bool.not_true, Bool.false_eq_true, if_false, reduceIte]
    have h2 : (appHandle notesRouter timestamp store now req).2 =
        Store.update store "my-rate-limit"
          (now :: (store "my-rate-limit").filter
            (live slidingWindowSeconds now)) := by
      rw [happ]
    refine ⟨happ, ?_, hne⟩
    rw [if_pos hadm, h2, Store.update_same, List.filter_cons, hTT, if_pos rfl,
      filter_live_filter_live _ (le_refl now), List.length_cons]
  · rw [if_neg hadm]
    have happ : appHandle notesRouter timestamp store now req =
        ({ status := 429, fields := [("message", tooManyRequestsMessage)] },
          Store.update store "my-rate-limit" (store "my-rate-limit")) := by
      simp only [appHandle, handleRequest, rateLimiter, checkAndAdmit,
        rateLimitIdentity, admitStep_fst_neg hadm, admitStep_snd_neg hadm,
        Bool.not_false, if_true, reduceIte]
    have h2 : (appHandle notesRouter timestamp store now req).2 =
        Store.update store "my-rate-limit" (store "my-rate-limit") := by
      rw [happ]
    refine ⟨happ, ?_, hne⟩
    rw [if_neg hadm, h2, Store.update_same]

/-- Witness for C10 on a concrete GET /health request against the empty
store, with a stub notes router and a fixed timestamp. -/
theorem c10_health_gated_globally_witness :
    (reqHealth.path = "/health" ∨ reqHealth.path = "/") ∧
    reqHealth.method = "GET" ∧
    (appHandle notesRouterC10 timestampC10 emptyStore 0 reqHealth =
      (if ((emptyStore "my-rate-limit").filter
            (live slidingWindowSeconds 0)).length < slidingWindowLimit then
        (routeFor notesRouterC10 timestampC10 reqHealth,
          Store.update emptyStore "my-rate-limit"
            (0 :: (emptyStore "my-rate-limit").filter (live slidingWindowSeconds 0)))
      else
        ({ status := 429, fields := [("message", tooManyRequestsMessage)] },
          Store.update emptyStore "my-rate-limit" (emptyStore "my-rate-limit"))) ∧
    (((appHandle notesRouterC10 timestampC10 emptyStore 0 reqHealth).2
        "my-rate-limit").filter (live slidingWindowSeconds 0)).length =
      (if ((emptyStore "my-rate-limit").filter
            (live slidingWindowSeconds 0)).length < slidingWindowLimit then
        ((emptyStore "my-rate-limit").filter (live slidingWindowSeconds 0)).length + 1
      else
        ((emptyStore "my-rate-limit").filter (live slidingWindowSeconds 0)).length) ∧
    ({ status := 429, fields := [("message", tooManyRequestsMessage)] } :
        HttpResponse) ≠
      routeFor notesRouterC10 timestampC10 reqHealth) :=
  ⟨Or.inl rfl, rfl,
    c10_health_gated_globally notesRouterC10 timestampC10 emptyStore 0 reqHealth
      (Or.inl rfl) rfl⟩

end RateGate
